import Mathlib

/-!
Shallow embedding of the Instapaper archive pipeline
(`scripts/export_instapaper_to_obsidian.py`,
`scripts/bulk_import_instapaper_from_csv.py`,
`scripts/diagnostic_scripts/test_instapaper_pagination.py`).

Machine timestamps are modelled as `Nat` seconds since the Unix epoch and
`datetime.fromtimestamp` is modelled as the UTC civil-date conversion.
JSON documents are modelled by the inductive `J`; Python dictionaries by
association lists.  Fallible remote calls and file writes are modelled by
oracle functions supplied in an environment record.
-/

namespace InstapaperArchive

/-- Model of a JSON document (the shape persisted by the manifest code). -/
inductive J where
  | num (n : Nat)
  | str (s : String)
  | arr (xs : List J)
  | obj (kv : List (String × J))
deriving Repr

/-- Whether a JSON document is a top-level object (mapping). -/
def J.isObj : J → Bool
  | .obj _ => true
  | _ => false

/-- Top-level keys of a JSON object (empty for non-objects). -/
def objKeys : J → List String
  | .obj kv => kv.map Prod.fst
  | _ => []

/-- Field lookup in a JSON object. -/
def objLookup : J → String → Option J
  | .obj kv, k => kv.lookup k
  | _, _ => none

/-- Whether a JSON object has a given top-level field. -/
def hasField (j : J) (k : String) : Bool :=
  (objLookup j k).isSome

/-- Document written by `save_manifest` of the export script:
`json.dumps(list(ids))`, a flat JSON array of bookmark ids. -/
def exportManifestDoc (ids : List Nat) : J :=
  J.arr (ids.map J.num)

/-- Serialized text written by `save_manifest` of the export script:
`json.dumps` of a list of integers uses the default `", "` separator. -/
def save_manifest (ids : List Nat) : String :=
  "[" ++ String.intercalate ", " (ids.map toString) ++ "]"

/-- Durable on-disk contents reachable when `Path.write_text` replaces
`old` by `new` and the process may crash at any byte boundary.
`write_text` opens the file in write mode, which truncates it in place,
and then writes the new data; so a crash can leave the old content
(crash before the open) or any prefix of the new content (crash after
the truncating open, with some bytes written). -/
def writeTextDurable (old new : String) : List String :=
  old :: (List.range (new.data.length + 1)).map (fun k => String.mk (new.data.take k))

/-- One outcome record of the bulk-import manifest
(`processed_manifest[bid_str] = dict(status=..., title=..., ...)`). -/
structure BulkEntry where
  status : String
  title : String
  error_message : Option String
  file_path : Option String
deriving DecidableEq, Repr

/-- JSON shape of one bulk-import manifest entry. -/
def bulkEntryJson (e : BulkEntry) : J :=
  J.obj ([("status", J.str e.status), ("title", J.str e.title)]
    ++ (match e.error_message with
        | some m => [("error_message", J.str m)]
        | none => [])
    ++ (match e.file_path with
        | some p => [("file_path", J.str p)]
        | none => []))

/-- Document written by `save_manifest` of the bulk-import script: a JSON
object mapping the stringified bookmark id to its outcome record. -/
def bulkManifestDoc (m : List (String × BulkEntry)) : J :=
  J.obj (m.map (fun p => (p.1, bulkEntryJson p.2)))

/-! Retry engine (`retry_request` of the export script). -/

/-- Parsed JSON payload of a 2xx response, as `retry_request` sees it
after `resp.json()`: a dictionary or a list. -/
inductive ApiData where
  | dict (kv : List (String × String))
  | list (items : List String)
deriving DecidableEq, Repr

/-- Outcome of one invocation of the wrapped remote call, as classified
by the `try` block of `retry_request`. -/
inductive CallResult where
  | ok (data : ApiData)
  | httpError (status : Nat)
  | jsonError
  | connError
  | timeout
deriving DecidableEq, Repr

/-- Error raised by `retry_request`. -/
inductive RetryError where
  | apiError (code msg : String)
  | httpError (status : Nat)
  | jsonError
  | connError
  | timeout
  | exhausted
deriving DecidableEq, Repr

/-- Result of `retry_request`: the parsed data, or the raised error. -/
inductive RetryOutcome where
  | success (d : ApiData)
  | fatal (e : RetryError)
deriving DecidableEq, Repr

/-- `MAX_RETRIES = 5` in the export script. -/
def MAX_RETRIES : Nat := 5

/-- `BACKOFF_FACTOR = 2` in the export script. -/
def BACKOFF_FACTOR : Nat := 2

/-- `MAX_LIMIT = 500` in the export script. -/
def MAX_LIMIT : Nat := 500

/-- Classification of one attempt inside `retry_request`: either the
returned data, or the raised error paired with its `should_retry` flag.
A 2xx dictionary payload with `type == error` raises a non-retryable
API error; HTTP errors retry only on status 503; JSON decode errors,
connection errors and timeouts retry. -/
def attemptResult (r : CallResult) : ApiData ⊕ (RetryError × Bool) :=
  match r with
  | .ok d =>
      match d with
      | .dict kv =>
          if kv.lookup "type" = some "error" then
            .inr (.apiError ((kv.lookup "error_code").getD "N/A")
                            ((kv.lookup "message").getD "No message"), false)
          else .inl d
      | .list items => .inl (.list items)
  | .httpError s => .inr (.httpError s, s == 503)
  | .jsonError => .inr (.jsonError, true)
  | .connError => .inr (.connError, true)
  | .timeout => .inr (.timeout, true)

/-- Core loop of `retry_request`.  `fn` gives the outcome of each
invocation of the wrapped call (indexed by attempt number); `remaining`
counts the attempts still allowed; `delay` is the current backoff delay.
Returns the outcome, the number of invocations performed, and the list
of delays slept (in order).  `attempt == MAX_RETRIES` in the source
corresponds to `remaining` dropping to zero after this attempt. -/
def retryLoop (fn : Nat → CallResult) : Nat → Nat → Nat → RetryOutcome × Nat × List Nat
  | 0, _, _ => (.fatal .exhausted, 0, [])
  | remaining + 1, attempt, delay =>
      match attemptResult (fn attempt) with
      | .inl d => (.success d, 1, [])
      | .inr (e, shouldRetry) =>
          if !shouldRetry || remaining == 0 then (.fatal e, 1, [])
          else
            match retryLoop fn remaining (attempt + 1) (delay * BACKOFF_FACTOR) with
            | (out, calls, delays) => (out, calls + 1, delay :: delays)

/-- `retry_request`: up to `MAX_RETRIES` attempts, starting delay 1. -/
def retry_request (fn : Nat → CallResult) : RetryOutcome × Nat × List Nat :=
  retryLoop fn MAX_RETRIES 1 1

/-! Save-date handling of the export script. -/

/-- Civil date (year, month, day) from days since 1970-01-01, for the
proleptic Gregorian calendar (UTC model of `datetime.fromtimestamp`). -/
def civilFromDays (z : Nat) : Nat × Nat × Nat :=
  let w := z + 719468
  let era := w / 146097
  let doe := w % 146097
  let yoe := (doe - doe / 1460 + doe / 36524 - doe / 146096) / 365
  let y := yoe + era * 400
  let doy := doe - (365 * yoe + yoe / 4 - yoe / 100)
  let mp := (5 * doy + 2) / 153
  let d := doy - (153 * mp + 2) / 5 + 1
  let m := if mp < 10 then mp + 3 else mp - 9
  (if m ≤ 2 then y + 1 else y, m, d)

/-- Two-digit zero padding, as `strftime` produces. -/
def pad2 (n : Nat) : String :=
  if n < 10 then "0" ++ toString n else toString n

/-- `datetime.fromtimestamp(ts).strftime(s)` for the date pattern used by
the export script, modelled in UTC. -/
def dateStr (ts : Nat) : String :=
  match civilFromDays (ts / 86400) with
  | (y, m, d) => toString y ++ "-" ++ pad2 m ++ "-" ++ pad2 d

/-- Value of a timestamp field of a bookmark record (`bm.get(key)`):
absent, a JSON number, or a JSON string. -/
inductive TsField where
  | absent
  | num (n : Nat)
  | str (s : String)
deriving DecidableEq, Repr

/-- Python truthiness of a timestamp field value (`if time_saved_val:`):
`None`, `0` and the empty string are falsy. -/
def truthy : TsField → Bool
  | .absent => false
  | .num n => n != 0
  | .str s => s != ""

/-- Leading/trailing-whitespace strip (`str.strip()`). -/
def stripStr (s : String) : String :=
  String.mk (((s.data.dropWhile Char.isWhitespace).reverse.dropWhile Char.isWhitespace).reverse)

/-- Decimal digit-string parser used to model `int(...)` on strings. -/
def parseDigits : List Char → Option Nat
  | [] => none
  | cs =>
      if cs.all Char.isDigit then
        some (cs.foldl (fun a c => a * 10 + (c.toNat - 48)) 0)
      else none

/-- Model of `int(v)` on a field value: numbers convert directly, strings
must be (whitespace-padded) decimal digit strings, else `ValueError`. -/
def pyInt : TsField → Option Nat
  | .absent => none
  | .num n => some n
  | .str s => parseDigits (stripStr s).data

/-- Chosen save timestamp (`none` means `datetime.now()` is used) and the
`saved_date_source` string recorded in the metadata. -/
structure DateChoice where
  ts : Option Nat
  source : String
deriving DecidableEq, Repr

/-- Save-date selection of the export script main loop: the first truthy
field among `time_saved` and `time` is picked; if the picked value fails
`int(...)` the current date is used (the other field is not consulted);
if neither is truthy the current date is used. -/
def chooseSavedDate (time_saved time : TsField) : DateChoice :=
  if truthy time_saved then
    match pyInt time_saved with
    | some v => ⟨some v, "original - time_saved"⟩
    | none => ⟨none, "fallback - invalid format (time_saved)"⟩
  else if truthy time then
    match pyInt time with
    | some v => ⟨some v, "original - time"⟩
    | none => ⟨none, "fallback - invalid format (time)"⟩
  else ⟨none, "fallback - missing"⟩

/-- Selection rule stated from the spec words of claim C8 (for the
refinement comparison): use the primary field if present and parseable,
otherwise the secondary field if present and parseable, otherwise the
current wall-clock time (`none`). -/
def specSavedDate (time_saved time : TsField) : Option Nat :=
  match pyInt time_saved with
  | some v => some v
  | none =>
      match pyInt time with
      | some v => some v
      | none => none

/-! Title sanitization, filename and metadata header of the export script. -/

/-- Characters stripped by `sanitize_title` (the raw set `<>:"/\|?*`). -/
def illegalFilenameChars : List Char :=
  ['<', '>', ':', '"', '/', '\\', '|', '?', '*']

/-- `sanitize_title`: drop illegal filename characters, then strip. -/
def sanitize_title (t : String) : String :=
  stripStr (String.mk (t.data.filter (fun c => !illegalFilenameChars.contains c)))

/-- YAML quote escaping of the title (`title.replace(quote, backslash-quote)`). -/
def escapeQuotes (s : String) : String :=
  String.mk (s.data.foldr (fun c acc => if c = '"' then '\\' :: '"' :: acc else c :: acc) [])

/-- Output filename of the export script:
`f-string of saved date, en dash, sanitized title truncated to 80, .md`. -/
def export_filename (title : String) (ts : Nat) : String :=
  dateStr ts ++ " – " ++ String.mk ((sanitize_title title).data.take 80) ++ ".md"

/-- Frontmatter lines assembled by the export script for one bookmark. -/
def frontmatter_lines (bid : Nat) (title url saved source : String) : List String :=
  ["---",
   "title: \"" ++ escapeQuotes title ++ "\"",
   "original_url: \"" ++ url ++ "\"",
   "instapaper_id: " ++ toString bid,
   "date_saved: " ++ saved,
   "date_saved_source: " ++ source,
   "---", ""]

/-! List-request payloads (claim C9). -/

/-- Payload of one `/bookmarks/list` request: the page-size ceiling, the
folder, and the ids serialized into the `have` exclusion hint (later
comma-joined; `none` when the parameter is omitted). -/
structure ListPayload where
  limit : Nat
  folder_id : String
  have_ids : Option (List Nat)
deriving DecidableEq, Repr

/-- Payload built by `fetch_bookmarks` of the export script: `limit` is
`MAX_LIMIT` and, when the seen set is non-empty, `have` joins the whole
seen set with no cap. -/
def fetch_bookmarks_payload (have_list : List Nat) (folder_id : String) : ListPayload :=
  ⟨MAX_LIMIT, folder_id, if have_list.isEmpty then none else some have_list⟩

/-- Payload built by `fetch_bookmarks` of the diagnostic pagination
script: as above, but only the first 50 ids are sent. -/
def diag_fetch_bookmarks_payload (have_ids : Option (List Nat)) (folder_id : String) :
    ListPayload :=
  ⟨MAX_LIMIT, folder_id,
    match have_ids with
    | none => none
    | some l => if l.isEmpty then none else some (l.take 50)⟩

/-! Export orchestrator loop (claims C2 and C3). -/

/-- One bookmark record as consumed by the export main loop. -/
structure Bm where
  bookmark_id : Nat
  title : String
  url : String
  time_saved : TsField
  time : TsField
deriving DecidableEq, Repr

/-- Oracles for the effectful per-item steps of the export main loop:
`fetch` gives the full text returned for an id (the empty string models
a failed or empty fetch) and `writeOk` tells whether the file write for
an id succeeds. -/
structure ExportEnv where
  fetch : Nat → String
  writeOk : Nat → Bool

/-- State of the export main loop: the in-memory manifest (insertion
ordered, duplicate free), the ids whose output files have been written,
and the successive manifest snapshots passed to `save_manifest`. -/
structure ExportState where
  processed : List Nat
  files : List Nat
  saves : List (List Nat)
deriving DecidableEq, Repr

/-- Per-bookmark body of the export main loop: skip ids already in the
manifest; a fetch returning no content marks the id processed without a
file; a successful write marks the id processed and records the file;
a failed write leaves the state unchanged (`continue` before the add). -/
def processBm (env : ExportEnv) (st : ExportState) (bm : Bm) : ExportState :=
  if bm.bookmark_id ∈ st.processed then st
  else if env.fetch bm.bookmark_id = "" then
    { st with processed := st.processed ++ [bm.bookmark_id] }
  else if env.writeOk bm.bookmark_id then
    { st with processed := st.processed ++ [bm.bookmark_id],
              files := st.files ++ [bm.bookmark_id] }
  else st

/-- One non-empty-batch iteration of the export main loop: process every
bookmark of the batch, then `save_manifest(processed)`. -/
def stepAndSave (env : ExportEnv) (bms : List Bm) (st : ExportState) : ExportState :=
  let st' := bms.foldl (processBm env) st
  { st' with saves := st'.saves ++ [st'.processed] }

/-- The `while True` loop of the export script main: fetch a batch with
the current manifest as the `have` hint; an empty batch breaks the loop
and the final `save_manifest` runs; otherwise the batch is processed,
an intermediate `save_manifest` runs, and the loop repeats.  `fuel`
bounds the number of iterations we unfold; `none` means the loop has
not terminated within `fuel` iterations. -/
def exportLoop (env : ExportEnv) (remote : Nat → List Nat → List Bm) :
    Nat → Nat → ExportState → Option ExportState
  | 0, _, _ => none
  | fuel + 1, k, st =>
      if (remote k st.processed).isEmpty then
        some { st with saves := st.saves ++ [st.processed] }
      else
        exportLoop env remote fuel (k + 1) (stepAndSave env (remote k st.processed) st)

/-- Run the export main loop from a loaded manifest. -/
def runExport (env : ExportEnv) (remote : Nat → List Nat → List Bm)
    (fuel : Nat) (m0 : List Nat) : Option ExportState :=
  exportLoop env remote fuel 0 ⟨m0, [], []⟩

/-- A remote list endpoint that honours the exclusion hint over a fixed
unchanged source: it returns the source items whose ids are not in the
hint, up to the page-size ceiling of 500. -/
def honestRemote (source : List Bm) : Nat → List Nat → List Bm :=
  fun _ seen => (source.filter (fun bm => !(seen.contains bm.bookmark_id))).take 500

/-! Bulk-import per-item pipeline (claims C5 and C6). -/

/-- One CSV-sourced bookmark as consumed by the bulk-import main loop;
`fname` is the output filename computed for it from its CSV dates and
sanitized title. -/
structure BulkItem where
  id : Nat
  title : String
  fname : String
deriving DecidableEq, Repr

/-- Oracles for the effectful steps of the bulk-import loop: the fetched
full text (empty models failure), the fetch error message (empty models
`None`), whether markdown conversion succeeds, the conversion error
message, and whether the file write succeeds. -/
structure BulkEnv where
  fetch : Nat → String
  fetchErr : Nat → String
  convOk : Nat → Bool
  convErr : Nat → String
  writeOk : Nat → Bool

/-- State of the bulk-import loop: the manifest (association list keyed
by stringified id) and the ids whose output files have been written. -/
structure BulkState where
  manifest : List (String × BulkEntry)
  files : List Nat
deriving DecidableEq, Repr

/-- `fetch_error_msg or default`: Python `or` falls back on falsy values. -/
def fetchErrOrDefault (s : String) : String :=
  if s = "" then "No HTML content returned, no specific error captured." else s

/-- Per-item body of the bulk-import main loop: skip ids already in the
manifest; a fetch with no content records a `text_fetch_failed` entry
(no file); a conversion failure records `markdown_conversion_failed`
(no file); a successful write writes the file and then records the
`success` entry; a failed write records nothing (`continue` before the
manifest update), so a future run retries the item. -/
def processBulkItem (env : BulkEnv) (st : BulkState) (it : BulkItem) : BulkState :=
  if (st.manifest.lookup (toString it.id)).isSome then st
  else if env.fetch it.id = "" then
    { st with manifest := st.manifest ++
        [(toString it.id,
          ⟨"text_fetch_failed", it.title, some (fetchErrOrDefault (env.fetchErr it.id)), none⟩)] }
  else if env.convOk it.id = false then
    { st with manifest := st.manifest ++
        [(toString it.id,
          ⟨"markdown_conversion_failed", it.title, some (env.convErr it.id), none⟩)] }
  else if env.writeOk it.id then
    { st with
        manifest := st.manifest ++ [(toString it.id, ⟨"success", it.title, none, some it.fname⟩)],
        files := st.files ++ [it.id] }
  else st

/-- Fold of the bulk-import loop over the CSV items. -/
def runBulkFrom (env : BulkEnv) (st : BulkState) (items : List BulkItem) : BulkState :=
  items.foldl (processBulkItem env) st

/-- Ledger invariant of claim C5: every entry with status `success` names
an item whose output file has been written. -/
def BulkInv (st : BulkState) : Prop :=
  ∀ p ∈ st.manifest, p.2.status = "success" → p.1 ∈ st.files.map toString

/-! Theorems. -/

/-- C1, counterexample: `save_manifest` is not an atomic whole-file
replace.  Replacing the persisted manifest of `[1]` by that of `[1, 2]`
via `write_text` can, after a crash just after the truncating open,
leave the empty file — which is neither the complete previous document
nor the complete new one. -/
theorem c1_persist_not_atomic_cex :
    ("" : String) ∈ writeTextDurable (save_manifest [1]) (save_manifest [1, 2]) ∧
    save_manifest [1] ≠ "" ∧ save_manifest [1, 2] ≠ "" := by
  decide

/-- C1, amended: `save_manifest` rewrites the manifest file in place with
the complete serialized new document, so a completed write leaves
exactly the new document; but the rewrite is not atomic — a crash
during it leaves either the complete old document or some (possibly
empty) prefix of the new document. -/
theorem c1_persist_full_write (old : String) (ids : List Nat) :
    save_manifest ids ∈ writeTextDurable old (save_manifest ids) ∧
    ∀ s ∈ writeTextDurable old (save_manifest ids),
      s = old ∨ s.data <+: (save_manifest ids).data := by
  constructor
  · refine List.mem_cons_of_mem _ (List.mem_map.mpr
      ⟨(save_manifest ids).data.length, List.mem_range.mpr (Nat.lt_succ_self _), ?_⟩)
    rw [List.take_length]
  · intro s hs
    rcases List.mem_cons.mp hs with h | h
    · exact Or.inl h
    · rcases List.mem_map.mp h with ⟨k, -, rfl⟩
      exact Or.inr ⟨(save_manifest ids).data.drop k, List.take_append_drop k _⟩

/-- Witness for `c1_persist_full_write` at a concrete crash state. -/
theorem c1_persist_full_write_witness :
    ("[3" : String) = "x" ∨ ("[3" : String).data <+: (save_manifest [35]).data :=
  (c1_persist_full_write "x" [35]).2 "[3" (by decide)

/-- C4: a wrapped call that returns HTTP 503 on every invocation is
invoked exactly `MAX_RETRIES = 5` times by `retry_request`, the last
observed 503 error is then raised as fatal, and the slept delays start
at 1 time unit and are each multiplied by `BACKOFF_FACTOR` for the next
retry. -/
theorem c4_retry_cap_503 (fn : Nat → CallResult)
    (h : ∀ k, fn k = CallResult.httpError 503) :
    retry_request fn =
      (RetryOutcome.fatal (RetryError.httpError 503), MAX_RETRIES, [1, 2, 4, 8]) ∧
    MAX_RETRIES = 5 ∧
    List.head? [1, 2, 4, 8] = some 1 ∧
    ∀ i, i < 3 →
      List.getD [1, 2, 4, 8] (i + 1) 0 = BACKOFF_FACTOR * List.getD [1, 2, 4, 8] i 0 := by
  have hfn : fn = fun _ => CallResult.httpError 503 := funext h
  subst hfn
  exact ⟨by decide, by decide, by decide, by decide⟩

/-- Witness for `c4_retry_cap_503` at the constant-503 call. -/
theorem c4_retry_cap_503_witness :
    retry_request (fun _ => CallResult.httpError 503) =
      (RetryOutcome.fatal (RetryError.httpError 503), MAX_RETRIES, [1, 2, 4, 8]) ∧
    MAX_RETRIES = 5 ∧
    List.head? [1, 2, 4, 8] = some 1 ∧
    ∀ i, i < 3 →
      List.getD [1, 2, 4, 8] (i + 1) 0 = BACKOFF_FACTOR * List.getD [1, 2, 4, 8] i 0 :=
  c4_retry_cap_503 (fun _ => CallResult.httpError 503) (fun _ => rfl)

/-- C7: the filename computation is a pure function of the title and the
resolved save timestamp (hence byte-identical across runs), and on the
spec scenario — id 42, title `A "Quoted" Title`, saved timestamp
1700000000 (UTC) — it yields exactly `2023-11-14 – A Quoted Title.md`,
while the metadata header contains `instapaper_id: 42` and the title
with quote characters escaped. -/
theorem c7_filename_scenario :
    export_filename "A \"Quoted\" Title" 1700000000 = "2023-11-14 – A Quoted Title.md" ∧
    ("instapaper_id: " ++ toString 42) ∈
      frontmatter_lines 42 "A \"Quoted\" Title" "http://example.com" "2023-11-14"
        "original - time_saved" ∧
    ("title: \"" ++ escapeQuotes "A \"Quoted\" Title" ++ "\"") ∈
      frontmatter_lines 42 "A \"Quoted\" Title" "http://example.com" "2023-11-14"
        "original - time_saved" ∧
    escapeQuotes "A \"Quoted\" Title" = "A \\\"Quoted\\\" Title" := by
  decide

/-- C8, counterexample: an item whose primary field `time_saved` is
present but unparseable (`"abc"`) while the secondary field `time` is
present and parseable is given the current-time fallback by the code,
not the secondary timestamp that the claim requires. -/
theorem c8_primary_unparseable_cex :
    chooseSavedDate (TsField.str "abc") (TsField.num 1700000000) =
      ⟨none, "fallback - invalid format (time_saved)"⟩ ∧
    specSavedDate (TsField.str "abc") (TsField.num 1700000000) = some 1700000000 := by
  decide

/-- C8, amended: the save-date priority is over truthiness, not
presence-and-parseability: a truthy primary is used if parseable and
otherwise falls through to the current time (the secondary is not
consulted); the secondary is consulted only when the primary is falsy;
when both are falsy the current time is used; and in every case the
metadata header records the chosen source. -/
theorem c8_date_fallback :
    (∀ p s n, truthy p = true → pyInt p = some n →
        chooseSavedDate p s = ⟨some n, "original - time_saved"⟩) ∧
    (∀ p s n, truthy p = false → truthy s = true → pyInt s = some n →
        chooseSavedDate p s = ⟨some n, "original - time"⟩) ∧
    (∀ p s, truthy p = false → truthy s = false →
        chooseSavedDate p s = ⟨none, "fallback - missing"⟩) ∧
    (∀ p s, truthy p = true → pyInt p = none →
        chooseSavedDate p s = ⟨none, "fallback - invalid format (time_saved)"⟩) ∧
    (∀ p s, truthy p = false → truthy s = true → pyInt s = none →
        chooseSavedDate p s = ⟨none, "fallback - invalid format (time)"⟩) ∧
    (∀ bid title url saved ch,
        ("date_saved_source: " ++ ch) ∈ frontmatter_lines bid title url saved ch) := by
  refine ⟨?_, ?_, ?_, ?_, ?_, ?_⟩ <;> intros <;>
    simp_all [chooseSavedDate, frontmatter_lines]

/-- Witness for `c8_date_fallback`: secondary-only item uses `time`. -/
theorem c8_date_fallback_witness :
    chooseSavedDate TsField.absent (TsField.num 7) = ⟨some 7, "original - time"⟩ :=
  c8_date_fallback.2.1 TsField.absent (TsField.num 7) 7 rfl rfl rfl

/-- C9, counterexample: with a seen set of 51 identifiers the export
script's `fetch_bookmarks` sends the entire seen set as the `have`
hint — there is no cap — whereas the diagnostic script caps the hint at
its first 50 identifiers. -/
theorem c9_uncapped_have_cex :
    (fetch_bookmarks_payload (List.range 51) "archive").have_ids = some (List.range 51) ∧
    (List.range 51).length = 51 ∧
    (diag_fetch_bookmarks_payload (some (List.range 51)) "archive").have_ids =
      some (List.range 50) := by
  decide

/-- C9, amended: every list request carries the fixed page-size ceiling
`MAX_LIMIT = 500`; the export orchestrator's paginator sends the whole
seen set as the exclusion hint, uncapped, while only the diagnostic
pagination script bounds the hint to at most 50 identifiers. -/
theorem c9_have_hint :
    (∀ (a : Nat) (t : List Nat) (f : String),
        fetch_bookmarks_payload (a :: t) f = ⟨MAX_LIMIT, f, some (a :: t)⟩) ∧
    (∀ (l : List Nat) (f : String),
        ((diag_fetch_bookmarks_payload (some l) f).have_ids.getD []).length ≤ 50 ∧
        (diag_fetch_bookmarks_payload (some l) f).limit = MAX_LIMIT) ∧
    (∀ (l : List Nat) (f : String), (fetch_bookmarks_payload l f).limit = MAX_LIMIT) := by
  refine ⟨?_, ?_, ?_⟩
  · intro a t f
    simp [fetch_bookmarks_payload]
  · intro l f
    refine ⟨?_, rfl⟩
    cases l with
    | nil => simp [diag_fetch_bookmarks_payload]
    | cons a t =>
        simp only [diag_fetch_bookmarks_payload, List.isEmpty_cons, Bool.false_eq_true,
          if_false, Option.getD_some, List.length_take]
        omega
  · intro l f
    rfl

/-- C10: when the wrapped call returns a 2xx response whose parsed JSON
body is a dictionary with `type` equal to `error`, `retry_request`
raises the API error as fatal after exactly one invocation, sleeping no
delay at all. -/
theorem c10_api_error_fatal (fn : Nat → CallResult) (kv : List (String × String))
    (h1 : fn 1 = CallResult.ok (ApiData.dict kv))
    (h2 : kv.lookup "type" = some "error") :
    retry_request fn =
      (RetryOutcome.fatal (RetryError.apiError ((kv.lookup "error_code").getD "N/A")
        ((kv.lookup "message").getD "No message")), 1, []) := by
  show retryLoop fn MAX_RETRIES 1 1 = _
  simp [MAX_RETRIES, retryLoop, h1, attemptResult, h2]

/-- Witness for `c10_api_error_fatal` at a concrete error payload. -/
theorem c10_api_error_fatal_witness :
    retry_request (fun _ => CallResult.ok (ApiData.dict
        [("type", "error"), ("error_code", "1040"), ("message", "rate limited")])) =
      (RetryOutcome.fatal (RetryError.apiError "1040" "rate limited"), 1, []) :=
  (c10_api_error_fatal
    (fun _ => CallResult.ok (ApiData.dict
      [("type", "error"), ("error_code", "1040"), ("message", "rate limited")]))
    [("type", "error"), ("error_code", "1040"), ("message", "rate limited")]
    rfl (by decide)).trans (by decide)

/-- One bulk-import step preserves the success-implies-file invariant. -/
theorem bulkInv_step (env : BulkEnv) (st : BulkState) (it : BulkItem)
    (h : BulkInv st) : BulkInv (processBulkItem env st it) := by
  have hne1 : ("text_fetch_failed" : String) ≠ "success" := by decide
  have hne2 : ("markdown_conversion_failed" : String) ≠ "success" := by decide
  by_cases h1 : (st.manifest.lookup (toString it.id)).isSome
  · simpa [processBulkItem, h1] using h
  · by_cases h2 : env.fetch it.id = ""
    · have e : processBulkItem env st it = { st with manifest := st.manifest ++
          [(toString it.id, ⟨"text_fetch_failed", it.title,
            some (fetchErrOrDefault (env.fetchErr it.id)), none⟩)] } := by
        simp [processBulkItem, h1, h2]
      rw [e]
      intro p hp hps
      rcases List.mem_append.mp hp with hin | hnew
      · exact h p hin hps
      · rw [List.mem_singleton.mp hnew] at hps
        exact absurd hps hne1
    · by_cases h3 : env.convOk it.id = false
      · have e : processBulkItem env st it = { st with manifest := st.manifest ++
            [(toString it.id, ⟨"markdown_conversion_failed", it.title,
              some (env.convErr it.id), none⟩)] } := by
          simp [processBulkItem, h1, h2, h3]
        rw [e]
        intro p hp hps
        rcases List.mem_append.mp hp with hin | hnew
        · exact h p hin hps
        · rw [List.mem_singleton.mp hnew] at hps
          exact absurd hps hne2
      · by_cases h4 : env.writeOk it.id
        · have e : processBulkItem env st it = { st with
              manifest := st.manifest ++
                [(toString it.id, ⟨"success", it.title, none, some it.fname⟩)],
              files := st.files ++ [it.id] } := by
            simp [processBulkItem, h1, h2, h3, h4]
          rw [e]
          intro p hp hps
          rcases List.mem_append.mp hp with hin | hnew
          · simp only [List.map_append]
            exact List.mem_append_left _ (h p hin hps)
          · rw [List.mem_singleton.mp hnew]
            simp
        · have e : processBulkItem env st it = st := by
            simp [processBulkItem, h1, h2, h3, h4]
          rw [e]
          exact h

/-- C5, counterexample: an item whose content fetch fails is marked in
the bulk-import ledger (with outcome `text_fetch_failed`) although its
output file was never written, refuting the claim that every item is
marked only after its output file write has completed. -/
theorem c5_fetch_failure_marked_cex :
    (runBulkFrom ⟨fun _ => "", fun _ => "", fun _ => true, fun _ => "", fun _ => true⟩
        ⟨[], []⟩ [⟨7, "t", "f.md"⟩]).manifest.lookup "7" =
      some ⟨"text_fetch_failed", "t",
        some "No HTML content returned, no specific error captured.", none⟩ ∧
    (runBulkFrom ⟨fun _ => "", fun _ => "", fun _ => true, fun _ => "", fun _ => true⟩
        ⟨[], []⟩ [⟨7, "t", "f.md"⟩]).files = [] := by
  decide

/-- C5, amended: write-then-record holds for the success outcome: in
every state reached by the bulk-import loop, each ledger entry with
status `success` names an item whose output file has been written, and
a failed output-file write leaves the state unchanged (the item is not
added to the ledger, so a future run retries it); fetch and transform
failures, by contrast, are recorded with non-success outcomes without a
file write. -/
theorem c5_write_then_record :
    (∀ (env : BulkEnv) (st : BulkState) (items : List BulkItem),
        BulkInv st → BulkInv (runBulkFrom env st items)) ∧
    (∀ (env : BulkEnv) (st : BulkState) (it : BulkItem),
        env.fetch it.id ≠ "" → env.convOk it.id = true → env.writeOk it.id = false →
        processBulkItem env st it = st) := by
  constructor
  · intro env st items hinv
    induction items generalizing st with
    | nil => exact hinv
    | cons it rest ih => exact ih (processBulkItem env st it) (bulkInv_step env st it hinv)
  · intro env st it hf hc hw
    by_cases hm : (st.manifest.lookup (toString it.id)).isSome
    · simp [processBulkItem, hm]
    · simp [processBulkItem, hm, hf, hc, hw]

/-- Witness for `c5_write_then_record`: a failed write records nothing,
and the invariant holds after a run from the empty ledger. -/
theorem c5_write_then_record_witness :
    processBulkItem ⟨fun _ => "x", fun _ => "", fun _ => true, fun _ => "", fun _ => false⟩
      ⟨[], []⟩ ⟨3, "t", "f.md"⟩ = ⟨[], []⟩ ∧
    BulkInv (runBulkFrom ⟨fun _ => "x", fun _ => "", fun _ => true, fun _ => "", fun _ => true⟩
      ⟨[], []⟩ [⟨3, "t", "f.md"⟩]) :=
  ⟨c5_write_then_record.2 _ _ _ (by decide) rfl rfl,
   c5_write_then_record.1 _ _ _ (by intro p hp hps; exact absurd hp (List.not_mem_nil p))⟩

/-- C6, counterexample: the ledger persisted by the export script is a
flat JSON array of bookmark ids, not a top-level mapping from the
stringified identifier to an outcome record. -/
theorem c6_export_ledger_not_mapping_cex :
    exportManifestDoc [42] = J.arr [J.num 42] ∧
    (exportManifestDoc [42]).isObj = false :=
  ⟨rfl, rfl⟩

/-- C6, amended: the bulk-import ledger is a single document mapping the
stringified item identifier to an outcome record carrying a status tag
and the title (plus optional error message or output path), and fetch
failures and successes get the distinguishable tags `text_fetch_failed`
and `success`; the export script's ledger, however, is a flat array of
identifiers with no outcome records. -/
theorem c6_ledger_shape :
    (∀ m : List (String × BulkEntry), (bulkManifestDoc m).isObj = true) ∧
    (∀ m : List (String × BulkEntry), objKeys (bulkManifestDoc m) = m.map Prod.fst) ∧
    (∀ e : BulkEntry, objLookup (bulkEntryJson e) "status" = some (J.str e.status) ∧
        objLookup (bulkEntryJson e) "title" = some (J.str e.title)) ∧
    (∀ (env : BulkEnv) (st : BulkState) (it : BulkItem),
        st.manifest.lookup (toString it.id) = none → env.fetch it.id = "" →
        processBulkItem env st it = { st with manifest := st.manifest ++
          [(toString it.id, ⟨"text_fetch_failed", it.title,
            some (fetchErrOrDefault (env.fetchErr it.id)), none⟩)] }) ∧
    (∀ (env : BulkEnv) (st : BulkState) (it : BulkItem),
        st.manifest.lookup (toString it.id) = none → env.fetch it.id ≠ "" →
        env.convOk it.id = true → env.writeOk it.id = true →
        processBulkItem env st it = { st with
          manifest := st.manifest ++
            [(toString it.id, ⟨"success", it.title, none, some it.fname⟩)],
          files := st.files ++ [it.id] }) ∧
    ("text_fetch_failed" : String) ≠ "success" := by
  refine ⟨fun m => rfl, ?_, fun e => ⟨rfl, rfl⟩, ?_, ?_, by decide⟩
  · intro m
    induction m with
    | nil => rfl
    | cons p t ih => simp only [bulkManifestDoc, objKeys, List.map_cons] at ih ⊢; rw [ih]
  · intro env st it h1 h2
    simp [processBulkItem, h1, h2]
  · intro env st it h1 h2 h3 h4
    simp [processBulkItem, h1, h2, h3, h4]

/-- Witness for `c6_ledger_shape`: concrete fetch-failure entry. -/
theorem c6_ledger_shape_witness :
    processBulkItem ⟨fun _ => "", fun _ => "boom", fun _ => true, fun _ => "", fun _ => true⟩
        ⟨[], []⟩ ⟨9, "t", "f.md"⟩ =
      ⟨[("9", ⟨"text_fetch_failed", "t", some "boom", none⟩)], []⟩ :=
  (c6_ledger_shape.2.2.2.1
    (⟨fun _ => "", fun _ => "boom", fun _ => true, fun _ => "", fun _ => true⟩ : BulkEnv)
    ⟨[], []⟩ ⟨9, "t", "f.md"⟩ rfl rfl).trans (by decide)

/-- Export main loop stays live forever when the remote keeps returning
the single already-processed bookmark 1. -/
theorem exportLoop_stuck (env : ExportEnv) :
    ∀ (fuel k : Nat) (st : ExportState), st.processed = [1] →
      exportLoop env (fun _ _ => [⟨1, "t", "u", TsField.absent, TsField.absent⟩])
        fuel k st = none := by
  intro fuel
  induction fuel with
  | zero => intro k st h; rfl
  | succ n ih =>
      intro k st h
      rw [exportLoop]
      simp only [List.isEmpty_cons, Bool.false_eq_true, if_false]
      exact ih (k + 1) _ (by simp [stepAndSave, processBm, h])

/-- C2, code-bug evidence: the export orchestrator's pagination loop has
no all-already-seen exit and no safety iteration bound — against a
remote that ignores the exclusion hint and forever re-returns the
already-exported bookmark 1, the loop never reaches DONE, for any
iteration bound. -/
theorem c2_orchestrator_loop_diverges :
    ∀ fuel : Nat,
      runExport ⟨fun _ => "c", fun _ => true⟩
        (fun _ _ => [⟨1, "t", "u", TsField.absent, TsField.absent⟩]) fuel [1] = none :=
  fun fuel => exportLoop_stuck _ fuel 0 _ rfl

/-- Terminating export runs end with a final save of the manifest. -/
theorem exportLoop_saves_last (env : ExportEnv) (remote : Nat → List Nat → List Bm) :
    ∀ (fuel k : Nat) (st st' : ExportState),
      exportLoop env remote fuel k st = some st' →
      st'.saves.getLast? = some st'.processed := by
  intro fuel
  induction fuel with
  | zero => intro k st st' h; cases h
  | succ n ih =>
      intro k st st' h
      rw [exportLoop] at h
      by_cases hb : (remote k st.processed).isEmpty
      · rw [if_pos hb] at h
        obtain rfl := (Option.some.injEq _ _).mp h
        exact List.getLast?_concat _
      · rw [if_neg hb] at h
        exact ih (k + 1) _ st' h

/-- Terminating runs against an honest remote cover the whole source. -/
theorem exportLoop_honest_covers (env : ExportEnv) (source : List Bm) :
    ∀ (fuel k : Nat) (st st' : ExportState),
      exportLoop env (honestRemote source) fuel k st = some st' →
      ∀ bm ∈ source, bm.bookmark_id ∈ st'.processed := by
  intro fuel
  induction fuel with
  | zero => intro k st st' h; cases h
  | succ n ih =>
      intro k st st' h
      rw [exportLoop] at h
      by_cases hb : (honestRemote source k st.processed).isEmpty
      · rw [if_pos hb] at h
        obtain rfl := (Option.some.injEq _ _).mp h
        intro bm hbm
        have hnil : source.filter
            (fun bm => !(st.processed.contains bm.bookmark_id)) = [] := by
          have htake := List.isEmpty_iff.mp hb
          rcases List.take_eq_nil_iff.mp htake with h500 | hsrc
          · exact absurd h500 (by decide)
          · exact hsrc
        have := List.filter_eq_nil_iff.mp hnil bm hbm
        simpa using this
      · rw [if_neg hb] at h
        exact ih (k + 1) _ st' h

/-- C3: after a completed run of the export orchestrator against an
honest unchanged remote (one that honours the exclusion hint over a
fixed source), a second run terminates at once, writes zero new
document files, and persists a ledger exactly equal to the ledger the
first run persisted last. -/
theorem c3_second_run_noop (env1 env2 : ExportEnv) (source : List Bm)
    (fuel1 fuel2 : Nat) (m0 : List Nat) (st1 : ExportState)
    (h1 : runExport env1 (honestRemote source) fuel1 m0 = some st1) :
    runExport env2 (honestRemote source) (fuel2 + 1) st1.processed =
      some ⟨st1.processed, [], [st1.processed]⟩ ∧
    st1.saves.getLast? = some st1.processed := by
  have hcov := exportLoop_honest_covers env1 source fuel1 0 _ st1 h1
  constructor
  · show exportLoop _ _ (fuel2 + 1) 0 ⟨st1.processed, [], []⟩ = _
    rw [exportLoop]
    have hnil : source.filter
        (fun bm => !(st1.processed.contains bm.bookmark_id)) = [] := by
      rw [List.filter_eq_nil_iff]
      intro bm hbm
      simp [hcov bm hbm]
    have hb : (honestRemote source 0
        (⟨st1.processed, [], []⟩ : ExportState).processed).isEmpty = true := by
      show ((source.filter
        (fun bm => !(st1.processed.contains bm.bookmark_id))).take 500).isEmpty = true
      rw [hnil]
      rfl
    rw [if_pos hb]
    rfl
  · exact exportLoop_saves_last env1 _ fuel1 0 _ st1 h1

/-- Witness for `c3_second_run_noop` on a one-item source. -/
theorem c3_second_run_noop_witness :
    runExport ⟨fun _ => "d", fun _ => true⟩
        (honestRemote [⟨1, "t", "u", TsField.absent, TsField.absent⟩]) 1 [1] =
      some ⟨[1], [], [[1]]⟩ ∧
    ([[1], [1]] : List (List Nat)).getLast? = some [1] :=
  c3_second_run_noop ⟨fun _ => "c", fun _ => true⟩ ⟨fun _ => "d", fun _ => true⟩
    [⟨1, "t", "u", TsField.absent, TsField.absent⟩] 2 0 []
    ⟨[1], [1], [[1], [1]]⟩ (by decide)

end InstapaperArchive
